import Mathlib

/-!
Verification of the Password Breach Notification System backend.

Shallow embedding of the relevant JavaScript sources:
* `backend/utils/hashUtil.js` — SHA-1 based k-anonymity hash splitting
  (`generateSHA1Hash` is Node's `crypto` library, modelled as an abstract
  `sha1 : String → String` parameter; `getHashPrefix` is embedded exactly);
* `backend/services/breachService.js` — `checkPasswordBreach`,
  `calculateSeverity`, `checkMultiplePasswords`, with the external
  `axios.get` call modelled as an abstract `lookup` function returning
  either a response body or a failure (timeout / network / non-2xx);
* `backend/models/Breach.js` — the breach record, `calculateRiskLevel`,
  `generateRecommendedActions`, and the pre-save hook (mongoose's
  `isModified("breachSources")` flag is an explicit boolean argument);
* `backend/controllers/breachController.js` — the record find-or-create /
  merge logic of `checkPasswordBreach`, the notification block,
  `acknowledgeBreach` and `markActionCompleted`, with the Mongo collection
  modelled as a list of records.

JavaScript strings are Lean `String`s, numbers are `Nat`, dates are `Nat`
timestamps, and thrown exceptions are `Except` errors.
-/

namespace PBNS

/-! ## hashUtil.js -/

/-- Result of `getHashPrefix`: the first five characters of the digest and
the rest.  (`pfx` is the source's `prefix` field.) -/
structure HashSplit where
  pfx : String
  suffix : String
  deriving Repr, DecidableEq

/-- `getHashPrefix(password)` from `hashUtil.js`:
`hash.substring(0, 5)` / `hash.substring(5)` over `generateSHA1Hash`,
the SHA-1 digest in uppercase hex produced by Node's `crypto` library,
taken here as the abstract parameter `sha1`. -/
def getHashPrefix (sha1 : String → String) (password : String) : HashSplit :=
  let hash := sha1 password
  { pfx := hash.take 5, suffix := hash.drop 5 }

/-! ## breachService.js -/

/-- `calculateSeverity(count)` from `breachService.js`. -/
def calculateSeverity (count : Nat) : String :=
  if count ≥ 100000 then "critical"
  else if count ≥ 10000 then "high"
  else if count ≥ 1000 then "medium"
  else "low"

/-- Outcome of the external `axios.get` range query: a 2xx response with a
newline-delimited `SUFFIX:count` body, or a thrown error (timeout, network
error, or non-2xx status). -/
inductive LookupResult where
  | success (body : String)
  | failure (msg : String)
  deriving Repr, DecidableEq

/-- A result object returned by the breach service.  Fields that a given
code path does not set are `none` (absent JS object keys). -/
structure BreachCheckResult where
  isBreached : Bool
  count : Option Nat
  source : String
  severity : Option String
  error : Option String
  deriving Repr, DecidableEq

/-- `parseInt(hash.split(":")[1])` for a `SUFFIX:count` line. -/
def parseCount (line : String) : Nat :=
  (((line.splitOn ":").getD 1 "").toNat?).getD 0

/-- `hash.split(":")[0]` for a response line. -/
def lineSuffix (line : String) : String :=
  ((line.splitOn ":").headD "")

/-- `checkPasswordBreach(password)` from `breachService.js`.  The external
GET is `lookup` applied to the five-character hash prefix; any lookup
failure is caught and re-thrown as `"Failed to check password breach"`. -/
def checkPasswordBreach (lookup : String → LookupResult)
    (sha1 : String → String) (password : String) :
    Except String BreachCheckResult :=
  let hs := getHashPrefix sha1 password
  match lookup hs.pfx with
  | .failure _ => .error "Failed to check password breach"
  | .success body =>
    let hashes := body.splitOn "\n"
    match hashes.find? (fun h => (lineSuffix h).toUpper == hs.suffix.toUpper) with
    | some breachedHash =>
      let count := parseCount breachedHash
      .ok { isBreached := true, count := some count,
            source := "HaveIBeenPwned",
            severity := some (calculateSeverity count), error := none }
    | none =>
      .ok { isBreached := false, count := some 0,
            source := "HaveIBeenPwned",
            severity := some "none", error := none }

/-- `checkMultiplePasswords(passwords)` from `breachService.js`: each
password is checked in turn; a thrown per-password error is caught and an
object `{isBreached: false, error: message, source: "HaveIBeenPwned"}` is
pushed instead (the `count`/`severity` keys are absent). -/
def checkMultiplePasswords (lookup : String → LookupResult)
    (sha1 : String → String) (passwords : List String) :
    List BreachCheckResult :=
  passwords.map (fun password =>
    match checkPasswordBreach lookup sha1 password with
    | .ok r => r
    | .error msg =>
      { isBreached := false, count := none, source := "HaveIBeenPwned",
        severity := none, error := some msg })

/-! ## models/Breach.js -/

/-- One entry of `breachSources` in the `Breach` schema. -/
structure BreachSource where
  name : String
  dateFound : Nat
  severity : String
  description : String
  affectedAccounts : Nat
  deriving Repr, DecidableEq

/-- One entry of `recommendedActions` in the `Breach` schema (`completed`
defaults to `false`). -/
structure RecommendedAction where
  action : String
  priority : String
  completed : Bool
  deriving Repr, DecidableEq

/-- A `Breach` document.  `id` is the Mongo `_id`; schema defaults:
`isActive = true`, `timesFound = 1`, `notificationsSent = 0`,
`userAcknowledged = false`, `riskLevel = "medium"`. -/
structure Breach where
  id : Nat
  userId : Nat
  passwordHash : String
  breachSources : List BreachSource
  isActive : Bool
  firstDetected : Nat
  lastChecked : Nat
  timesFound : Nat
  notificationsSent : Nat
  userAcknowledged : Bool
  acknowledgedAt : Option Nat
  riskLevel : String
  recommendedActions : List RecommendedAction
  deriving Repr, DecidableEq

/-- `breachSchema.methods.calculateRiskLevel` from `Breach.js`, as a
function of the document's `breachSources`. -/
def calculateRiskLevel (breachSources : List BreachSource) : String :=
  if breachSources.isEmpty then "low"
  else
    let highRiskSources := breachSources.filter
      (fun source => source.severity == "critical" || source.severity == "high")
    if highRiskSources.length > 0 then "critical"
    else
      let mediumRiskSources := breachSources.filter
        (fun source => source.severity == "medium")
      if mediumRiskSources.length > 2 then "high"
      else if mediumRiskSources.length > 0 then "medium"
      else "low"

/-- `breachSchema.methods.generateRecommendedActions` from `Breach.js`, as
a function of the document's `riskLevel` (each pushed action has no
`completed` key, so the schema default `false` applies). -/
def generateRecommendedActions (riskLevel : String) : List RecommendedAction :=
  [{ action := "Change password immediately", priority := "high",
     completed := false }]
  ++ (if riskLevel == "critical" || riskLevel == "high" then
        [{ action := "Enable Two-Factor Authentication", priority := "high",
           completed := false },
         { action := "Review and update security questions",
           priority := "medium", completed := false },
         { action := "Check for unauthorized account access",
           priority := "high", completed := false }]
      else [])
  ++ [{ action := "Monitor account for suspicious activity",
        priority := "medium", completed := false }]

/-- The `breachSchema.pre("save")` hook: when `breachSources` was modified
(`sourcesModified`), `riskLevel` is recomputed first and
`recommendedActions` is then regenerated from the new `riskLevel`. -/
def preSaveHook (b : Breach) (sourcesModified : Bool) : Breach :=
  if sourcesModified then
    let rl := calculateRiskLevel b.breachSources
    { b with riskLevel := rl,
             recommendedActions := generateRecommendedActions rl }
  else b

/-! ## controllers/breachController.js -/

/-- The breach source object pushed by the controller:
`{name: breachResult.source, dateFound: new Date(), severity:
breachResult.severity, description: "Password found <count> times",
affectedAccounts: breachResult.count}`. -/
def mkSource (source : String) (now : Nat) (severity : String)
    (count : Nat) : BreachSource :=
  { name := source, dateFound := now, severity := severity,
    description := "Password found " ++ toString count ++ " times",
    affectedAccounts := count }

/-- The existing-record update branch of the controller's
`checkPasswordBreach`: `timesFound += 1`, `lastChecked = now`,
`isActive = true`, push a new source only when no existing source shares
its name, then `save()` (the pre-save hook sees `breachSources` as
modified exactly when a source was pushed). -/
def updateExisting (b : Breach) (source : String) (severity : String)
    (count : Nat) (now : Nat) : Breach :=
  let b1 := { b with timesFound := b.timesFound + 1, lastChecked := now,
                     isActive := true }
  match b1.breachSources.find? (fun s => s.name == source) with
  | some _ => preSaveHook b1 false
  | none =>
    preSaveHook
      { b1 with breachSources :=
          b1.breachSources ++ [mkSource source now severity count] } true

/-- The new-record branch of the controller's `checkPasswordBreach`: a
fresh document with one source and `timesFound = 1`; on first save every
path is modified, so the pre-save hook recomputes the derived fields. -/
def newBreach (nextId : Nat) (userId : Nat) (passwordHash : String)
    (source : String) (severity : String) (count : Nat) (now : Nat) :
    Breach :=
  preSaveHook
    { id := nextId, userId := userId, passwordHash := passwordHash,
      breachSources := [mkSource source now severity count],
      isActive := true, firstDetected := now, lastChecked := now,
      timesFound := 1, notificationsSent := 0, userAcknowledged := false,
      acknowledgedAt := none, riskLevel := "medium",
      recommendedActions := [] } true

/-- Whether a document matches `Breach.findOne({userId, passwordHash})`. -/
def keyMatches (userId : Nat) (passwordHash : String) (b : Breach) : Bool :=
  b.userId == userId && b.passwordHash == passwordHash

/-- The record find-or-create / merge step of the controller's
`checkPasswordBreach` (its persistence effect on the collection `db`),
for a detection with the given source name, severity and count. -/
def recordFinding (db : List Breach) (nextId : Nat) (userId : Nat)
    (passwordHash : String) (source : String) (severity : String)
    (count : Nat) (now : Nat) : List Breach :=
  match db.find? (keyMatches userId passwordHash) with
  | some _ =>
    db.map (fun b =>
      if keyMatches userId passwordHash b then
        updateExisting b source severity count now
      else b)
  | none =>
    db ++ [newBreach nextId userId passwordHash source severity count now]

/-- Outcome of `acknowledgeBreach`. -/
inductive AckResult where
  | notFound
  | ok
  deriving Repr, DecidableEq

/-- Whether a document matches `Breach.findOne({_id: breachId, userId})`. -/
def idMatches (breachId : Nat) (userId : Nat) (b : Breach) : Bool :=
  b.id == breachId && b.userId == userId

/-- `acknowledgeBreach` from `breachController.js`: look the record up by
`{_id, userId}`; absent (or owned by another user) means a 404 with the
collection untouched; otherwise set `userAcknowledged` and
`acknowledgedAt` and save (`breachSources` unmodified). -/
def acknowledgeBreach (db : List Breach) (userId : Nat) (breachId : Nat)
    (now : Nat) : AckResult × List Breach :=
  match db.find? (idMatches breachId userId) with
  | none => (.notFound, db)
  | some _ =>
    (.ok, db.map (fun b =>
      if idMatches breachId userId b then
        preSaveHook
          { b with userAcknowledged := true, acknowledgedAt := some now }
          false
      else b))

/-- Outcome of `markActionCompleted`. -/
inductive ActionResult where
  | notFound
  | invalidIndex
  | ok
  deriving Repr, DecidableEq

/-- `breach.recommendedActions[actionIndex].completed = true`. -/
def setCompleted (l : List RecommendedAction) (i : Nat) :
    List RecommendedAction :=
  match l[i]? with
  | some a => l.set i { a with completed := true }
  | none => l

/-- `markActionCompleted` from `breachController.js`: find by
`{_id, userId}` (404 when absent), reject an out-of-range index (400),
otherwise mark the indexed action completed and save (`breachSources`
unmodified).  The JS check is `actionIndex < 0 || actionIndex >= length`;
the index is a `Nat` here, so only the upper bound remains. -/
def markActionCompleted (db : List Breach) (userId : Nat) (breachId : Nat)
    (actionIndex : Nat) : ActionResult × List Breach :=
  match db.find? (idMatches breachId userId) with
  | none => (.notFound, db)
  | some b =>
    if actionIndex ≥ b.recommendedActions.length then (.invalidIndex, db)
    else
      (.ok, db.map (fun r =>
        if idMatches breachId userId r then
          preSaveHook
            { r with recommendedActions :=
                setCompleted r.recommendedActions actionIndex } false
        else r))

/-- The notification preferences and phone of a user, as read by the
controller's notification block. -/
structure NotifyUser where
  prefEmail : Bool
  prefSms : Bool
  phone : Option String
  deriving Repr, DecidableEq

/-- Observable outcome of the controller's notification block. -/
structure NotifyTrace where
  emailAttempted : Bool
  smsAttempted : Bool
  raised : Bool
  savedIncrement : Nat
  deriving Repr, DecidableEq

/-- The notification block of the controller's `checkPasswordBreach`
(lines 91–108): one `try` wraps, in order, the conditional email send,
the conditional SMS send, and the `save()` that persists the
`notificationsSent` increment; the single `catch` only logs.
`emailOk` / `smsOk` say whether the respective external send would
succeed or throw. -/
def notifyBlock (u : NotifyUser) (emailOk : Bool) (smsOk : Bool) :
    NotifyTrace :=
  if u.prefEmail && !emailOk then
    { emailAttempted := true, smsAttempted := false, raised := false,
      savedIncrement := 0 }
  else
    let smsWanted := u.prefSms && u.phone.isSome
    if smsWanted && !smsOk then
      { emailAttempted := u.prefEmail, smsAttempted := true,
        raised := false, savedIncrement := 0 }
    else
      { emailAttempted := u.prefEmail, smsAttempted := smsWanted,
        raised := false,
        savedIncrement := if u.prefEmail then 1 else 0 }

/-! ## Definitions written from the spec, for refinement comparisons -/

/-- The spec's risk-level rule, written from its words: critical if any
critical/high source exists; else high if more than 2 medium sources;
else medium if at least 1 medium source; else low. -/
def specRiskLevel (sources : List BreachSource) : String :=
  if sources.any (fun s => s.severity == "critical" || s.severity == "high")
  then "critical"
  else if 2 < sources.countP (fun s => s.severity == "medium") then "high"
  else if 0 < sources.countP (fun s => s.severity == "medium") then "medium"
  else "low"

/-! ## Concrete instances used as witnesses -/

/-- A lookup that always fails (e.g. a timeout): every request throws. -/
def failLookup : String → LookupResult :=
  fun _ => LookupResult.failure "timeout of 10000ms exceeded"

/-- A concrete digest function agreeing with SHA-1 on `"password123"`
(uppercase hex, 40 characters). -/
def sha1pw : String → String :=
  fun _ => "CBFDAC6008F9CAB4083784CBD1874F76618D2A97"

/-! ## Helper lemmas -/

theorem preSaveHook_false (b : Breach) : preSaveHook b false = b := rfl

theorem generateRecommendedActions_completed (rl : String) :
    ∀ a ∈ generateRecommendedActions rl, a.completed = false := by
  intro a ha
  unfold generateRecommendedActions at ha
  by_cases h : (rl == "critical" || rl == "high") = true
  · rw [if_pos h] at ha
    simp only [List.mem_append, List.mem_cons, List.mem_singleton,
      List.not_mem_nil] at ha
    rcases ha with (ha | ha | ha | ha) | ha <;> simp_all
  · rw [if_neg h] at ha
    simp only [List.mem_append, List.mem_cons, List.mem_singleton,
      List.not_mem_nil] at ha
    rcases ha with ha | ha <;> simp_all

/-! ## Claims -/

/-- C4: `calculateSeverity` is a pure total deterministic function of the
occurrence count returning `"critical"` when `c ≥ 100000`, `"high"` when
`10000 ≤ c < 100000`, `"medium"` when `1000 ≤ c < 10000`, and `"low"`
otherwise; in particular a count of 1489 yields `"medium"`. -/
theorem calculateSeverity_thresholds (c : Nat) :
    (calculateSeverity c = "critical" ↔ 100000 ≤ c) ∧
    (calculateSeverity c = "high" ↔ 10000 ≤ c ∧ c < 100000) ∧
    (calculateSeverity c = "medium" ↔ 1000 ≤ c ∧ c < 10000) ∧
    (calculateSeverity c = "low" ↔ c < 1000) ∧
    calculateSeverity 1489 = "medium" := by
  refine ⟨?_, ?_, ?_, ?_, by decide⟩ <;>
  · unfold calculateSeverity
    split_ifs <;> simp_all <;> omega

/-- C8: for a user with preferences `{email: false, sms: true}` and no
phone, the notification block attempts zero channel sends and completes
without raising. -/
theorem notifyBlock_noChannels (emailOk smsOk : Bool) :
    notifyBlock ⟨false, true, none⟩ emailOk smsOk =
      { emailAttempted := false, smsAttempted := false, raised := false,
        savedIncrement := 0 } := by
  cases emailOk <;> cases smsOk <;> rfl

/-- C6: the regenerated action list always starts with the high-priority
change-password action, contains the MFA / security-question /
unauthorized-access actions exactly when the risk level is high or
critical, and always ends with the medium-priority monitor action; a
record with a single critical-severity source gets risk level critical
and an "Enable Two-Factor Authentication" recommendation. -/
theorem recommendedActions_shape :
    (∀ rl : String,
      (generateRecommendedActions rl).head? =
        some { action := "Change password immediately", priority := "high",
               completed := false } ∧
      (generateRecommendedActions rl).getLast? =
        some { action := "Monitor account for suspicious activity",
               priority := "medium", completed := false } ∧
      (("Enable Two-Factor Authentication" ∈
          (generateRecommendedActions rl).map RecommendedAction.action ∧
        "Review and update security questions" ∈
          (generateRecommendedActions rl).map RecommendedAction.action ∧
        "Check for unauthorized account access" ∈
          (generateRecommendedActions rl).map RecommendedAction.action) ↔
        (rl = "high" ∨ rl = "critical"))) ∧
    (∀ (b : Breach) (src : BreachSource), src.severity = "critical" →
      b.breachSources = [src] →
      (preSaveHook b true).riskLevel = "critical" ∧
      "Enable Two-Factor Authentication" ∈
        (preSaveHook b true).recommendedActions.map RecommendedAction.action) := by
  constructor
  · intro rl
    by_cases h : (rl == "critical" || rl == "high") = true
    · have h' : rl = "critical" ∨ rl = "high" := by simpa using h
      refine ⟨?_, ?_, ?_⟩ <;> first
        | (simp [generateRecommendedActions, h]; tauto)
        | simp [generateRecommendedActions, h]
    · have h' : ¬(rl = "critical" ∨ rl = "high") := by simpa using h
      refine ⟨?_, ?_, ?_⟩ <;> first
        | (simp [generateRecommendedActions, h]; tauto)
        | simp [generateRecommendedActions, h]
  · intro b src hsev hsrc
    have hrl : calculateRiskLevel b.breachSources = "critical" := by
      rw [hsrc]
      simp [calculateRiskLevel, hsev]
    constructor
    · simp [preSaveHook, hrl]
    · simp [preSaveHook, hrl, generateRecommendedActions]

/-- A concrete critical-severity breach source. -/
def srcCrit : BreachSource :=
  { name := "HaveIBeenPwned", dateFound := 10, severity := "critical",
    description := "Password found 150000 times",
    affectedAccounts := 150000 }

/-- A concrete breach record holding exactly `srcCrit`. -/
def bCrit : Breach :=
  { id := 1, userId := 2, passwordHash := "HASH",
    breachSources := [srcCrit], isActive := true, firstDetected := 10,
    lastChecked := 10, timesFound := 1, notificationsSent := 0,
    userAcknowledged := false, acknowledgedAt := none,
    riskLevel := "medium", recommendedActions := [] }

/-- Witness for C6 at the concrete single-critical-source record. -/
theorem recommendedActions_shape_witness :
    srcCrit.severity = "critical" ∧ bCrit.breachSources = [srcCrit] ∧
    ((preSaveHook bCrit true).riskLevel = "critical" ∧
     "Enable Two-Factor Authentication" ∈
       (preSaveHook bCrit true).recommendedActions.map
         RecommendedAction.action) :=
  ⟨rfl, rfl, recommendedActions_shape.2 bCrit srcCrit rfl rfl⟩

/-- C7 counterexample: with email and SMS both enabled and a phone
present, a failing email send leaves the SMS channel unattempted — the
channels are not attempted independently (though nothing is raised). -/
theorem notifyBlock_emailFailureSkipsSms :
    (notifyBlock ⟨true, true, some "+15550100"⟩ false true).smsAttempted
      = false ∧
    (notifyBlock ⟨true, true, some "+15550100"⟩ false true).raised
      = false := by
  constructor <;> rfl

/-- C7 amended: the notification block never raises to the caller, and a
channel failure is only logged; but email and SMS share one try/catch,
so when the email send fails the SMS send is not attempted and the
`notificationsSent` increment is not persisted; when the email send
succeeds (or email is disabled) the SMS send is attempted exactly when
SMS is enabled and a phone is present. -/
theorem notifyBlock_spec (pe ps : Bool) (ph : Option String)
    (eo so : Bool) :
    (notifyBlock ⟨pe, ps, ph⟩ eo so).raised = false ∧
    (notifyBlock ⟨true, ps, ph⟩ false so).smsAttempted = false ∧
    (notifyBlock ⟨true, ps, ph⟩ false so).savedIncrement = 0 ∧
    (notifyBlock ⟨pe, ps, ph⟩ true so).smsAttempted = (ps && ph.isSome) ∧
    (notifyBlock ⟨false, ps, ph⟩ eo so).smsAttempted = (ps && ph.isSome) := by
  cases pe <;> cases ps <;> cases eo <;> cases so <;> cases ph <;>
    simp [notifyBlock]

/-- C1 counterexample: when every lookup fails, `checkMultiplePasswords`
does not raise; it returns an entry with `isBreached = false` (the error
message is attached, but the breached flag is false). -/
theorem checkMultiplePasswords_failure_entry :
    checkMultiplePasswords failLookup sha1pw ["password123"] =
      [{ isBreached := false, count := none, source := "HaveIBeenPwned",
         severity := none, error := some "Failed to check password breach" }]
    := rfl

/-- C1 amended: when the range lookup for a password's prefix fails, the
single-password check raises the typed error
`"Failed to check password breach"` and returns no result; the
multiple-password check catches that error per password and pushes an
entry whose `isBreached` is `false` but whose `error` field carries the
message, instead of raising. -/
theorem checkPasswordBreach_lookupFailure
    (lookup : String → LookupResult) (sha1 : String → String)
    (password msg : String) (rest : List String)
    (h : lookup ( getHashPrefix sha1 password).pfx =
          LookupResult.failure msg) :
    checkPasswordBreach lookup sha1 password =
      Except.error "Failed to check password breach" ∧
    checkMultiplePasswords lookup sha1 (password :: rest) =
      { isBreached := false, count := none, source := "HaveIBeenPwned",
        severity := none, error := some "Failed to check password breach" }
        :: checkMultiplePasswords lookup sha1 rest := by
  have h1 : checkPasswordBreach lookup sha1 password =
      Except.error "Failed to check password breach" := by
    simp [checkPasswordBreach, h]
  exact ⟨h1, by simp [checkMultiplePasswords, h1]⟩

/-- Witness for C1 at a concrete failing lookup. -/
theorem checkPasswordBreach_lookupFailure_witness :
    failLookup ( getHashPrefix sha1pw "password123").pfx =
      LookupResult.failure "timeout of 10000ms exceeded" ∧
    (checkPasswordBreach failLookup sha1pw "password123" =
      Except.error "Failed to check password breach" ∧
    checkMultiplePasswords failLookup sha1pw ["password123"] =
      { isBreached := false, count := none, source := "HaveIBeenPwned",
        severity := none, error := some "Failed to check password breach" }
        :: checkMultiplePasswords failLookup sha1pw []) :=
  ⟨rfl, checkPasswordBreach_lookupFailure failLookup sha1pw "password123"
    "timeout of 10000ms exceeded" [] rfl⟩

/-- C2: for any digest function producing 40-character strings, the hash
splitter returns the first 5 characters as the prefix and the remaining
35 as the suffix, and rejoining them reproduces the digest (round-trip
law); the splitter is a pure function. -/
theorem getHashPrefix_roundTrip (sha1 : String → String) (p : String)
    (h : (sha1 p).length = 40) :
    ( getHashPrefix sha1 p).pfx.length = 5 ∧
    ( getHashPrefix sha1 p).suffix.length = 35 ∧
    ( getHashPrefix sha1 p).pfx ++ ( getHashPrefix sha1 p).suffix
      = sha1 p := by
  have key : ∀ s : String, s.length = 40 →
      (s.take 5).length = 5 ∧ (s.drop 5).length = 35 ∧
      s.take 5 ++ s.drop 5 = s := by
    intro s hs
    obtain ⟨l⟩ := s
    rw [String.length_mk] at hs
    refine ⟨?_, ?_, ?_⟩
    · rw [String.take_eq, String.length_mk]
      show (l.take 5).length = 5
      rw [List.length_take]
      omega
    · rw [String.drop_eq, String.length_mk]
      show (l.drop 5).length = 35
      rw [List.length_drop]
      omega
    · apply String.ext
      rw [String.data_append, String.take_eq, String.drop_eq]
      show l.take 5 ++ l.drop 5 = l
      exact List.take_append_drop 5 l
  simpa [ getHashPrefix] using key (sha1 p) h

/-- Witness for C2 at the concrete SHA-1 digest of `"password123"`. -/
theorem getHashPrefix_roundTrip_witness :
    (sha1pw "password123").length = 40 ∧
    (( getHashPrefix sha1pw "password123").pfx.length = 5 ∧
     ( getHashPrefix sha1pw "password123").suffix.length = 35 ∧
     ( getHashPrefix sha1pw "password123").pfx ++
       ( getHashPrefix sha1pw "password123").suffix
       = sha1pw "password123") :=
  ⟨by decide, getHashPrefix_roundTrip sha1pw "password123" (by decide)⟩

/-- C3: `calculateRiskLevel` equals the spec's rule (critical if any
critical/high source; else high if more than 2 medium sources; else
medium if at least 1 medium source; else low); the pre-save hook
recomputes `riskLevel` from `breachSources` whenever they changed, and
both source-mutating operations (the merge into an existing record and
the creation of a new record) leave `riskLevel` equal to that pure
function of the saved record's sources — it is never set directly. -/
theorem riskLevel_pure_of_sources :
    (∀ sources : List BreachSource,
      calculateRiskLevel sources = specRiskLevel sources) ∧
    (∀ b : Breach,
      (preSaveHook b true).riskLevel = calculateRiskLevel b.breachSources ∧
      (preSaveHook b true).breachSources = b.breachSources) ∧
    (∀ (b : Breach) (src sev : String) (c now : Nat),
      b.riskLevel = calculateRiskLevel b.breachSources →
      (updateExisting b src sev c now).riskLevel =
        calculateRiskLevel ((updateExisting b src sev c now).breachSources)) ∧
    (∀ (nid uid : Nat) (hash src sev : String) (c now : Nat),
      (newBreach nid uid hash src sev c now).riskLevel =
        calculateRiskLevel
          ((newBreach nid uid hash src sev c now).breachSources)) := by
  refine ⟨?_, ?_, ?_, ?_⟩
  · intro sources
    unfold calculateRiskLevel specRiskLevel
    rcases sources with _ | ⟨s, rest⟩
    · simp
    · simp only [List.isEmpty_cons, if_neg]
      rw [List.countP_eq_length_filter]
      have hany : ((s :: rest).any
          (fun s => s.severity == "critical" || s.severity == "high")) =
          (0 < ((s :: rest).filter
            (fun s => s.severity == "critical" || s.severity == "high")).length) := by
        rw [List.length_pos_iff_exists_mem]
        simp [List.any_eq_true, List.mem_filter]
      rw [eq_comm] at hany
      split_ifs with h1 h2 h3 h4 h5 h6 h7 <;> simp_all
  · intro b
    exact ⟨rfl, rfl⟩
  · intro b src sev c now hb
    unfold updateExisting
    cases hf : (List.find? (fun s => s.name == src) b.breachSources) with
    | some s => simpa [hf, preSaveHook] using hb
    | none => simp [hf, preSaveHook]
  · intro nid uid hash src sev c now
    rfl

/-- A concrete breach record with no sources and consistent risk level. -/
def bEmpty : Breach :=
  { id := 3, userId := 4, passwordHash := "H2",
    breachSources := [], isActive := true, firstDetected := 0,
    lastChecked := 0, timesFound := 1, notificationsSent := 0,
    userAcknowledged := false, acknowledgedAt := none,
    riskLevel := "low", recommendedActions := [] }

/-- Witness for C3: the merge operation on a concrete consistent record
again yields a risk level equal to the pure function of its sources. -/
theorem riskLevel_pure_of_sources_witness :
    bEmpty.riskLevel = calculateRiskLevel bEmpty.breachSources ∧
    (updateExisting bEmpty "HaveIBeenPwned" "high" 20000 9).riskLevel =
      calculateRiskLevel
        ((updateExisting bEmpty "HaveIBeenPwned" "high" 20000 9).breachSources) :=
  ⟨by decide,
   riskLevel_pure_of_sources.2.2.1 bEmpty "HaveIBeenPwned" "high" 20000 9
     (by decide)⟩

/-- C5: recording a finding twice sequentially for the same
`(userId, passwordHash)` key with an identical source yields exactly one
record, holding exactly one breach-source entry bearing that source's
name, and `timesFound = 2` after the second call. -/
theorem recordFinding_twice (uid : Nat) (hash : String)
    (src sev : String) (c : Nat) (now1 now2 nid1 nid2 : Nat) :
    ((recordFinding (recordFinding [] nid1 uid hash src sev c now1)
        nid2 uid hash src sev c now2).map
      (fun b => (b.breachSources.map BreachSource.name, b.timesFound)))
    = [([src], 2)] := by
  simp [recordFinding, keyMatches, newBreach, preSaveHook, updateExisting,
    mkSource]

/-- C9: when no record matches both the given id and the calling user —
in particular when the named record exists but is owned by someone else —
`acknowledgeBreach` answers NotFound and leaves the collection (hence
every record's `userAcknowledged` and `acknowledgedAt`) unchanged; when a
record is owned by the caller, the call succeeds and that record gets
`userAcknowledged = true` with the acknowledgment timestamp. -/
theorem acknowledgeBreach_spec (db : List Breach) (uid rid now : Nat) :
    ((∀ b ∈ db, idMatches rid uid b = false) →
      acknowledgeBreach db uid rid now = (AckResult.notFound, db)) ∧
    ((∃ b ∈ db, idMatches rid uid b = true) →
      (acknowledgeBreach db uid rid now).1 = AckResult.ok ∧
      (acknowledgeBreach db uid rid now).2 =
        db.map (fun b =>
          if idMatches rid uid b then
            { b with userAcknowledged := true, acknowledgedAt := some now }
          else b)) := by
  unfold acknowledgeBreach
  cases hf : db.find? (idMatches rid uid) with
  | none =>
    refine ⟨fun _ => rfl, fun hex => ?_⟩
    obtain ⟨b, hb, hmatch⟩ := hex
    rw [List.find?_eq_none] at hf
    exact absurd hmatch (by simpa using hf b hb)
  | some b =>
    refine ⟨fun hall => ?_, fun _ => ⟨rfl, ?_⟩⟩
    · have hb := List.find?_some hf
      have hmem := List.mem_of_find?_eq_some hf
      rw [hall b hmem] at hb
      cases hb
    · simp [preSaveHook]

/-- A concrete record owned by user 2. -/
def bOwned : Breach :=
  { id := 7, userId := 2, passwordHash := "H3",
    breachSources := [srcCrit], isActive := true, firstDetected := 0,
    lastChecked := 0, timesFound := 1, notificationsSent := 0,
    userAcknowledged := false, acknowledgedAt := none,
    riskLevel := "critical", recommendedActions := [] }

/-- Witness for C9: user 5 asking about record 7 (owned by user 2) gets
NotFound and the collection is untouched; the owner's call succeeds. -/
theorem acknowledgeBreach_spec_witness :
    ((∀ b ∈ [bOwned], idMatches 7 5 b = false) ∧
      acknowledgeBreach [bOwned] 5 7 11 = (AckResult.notFound, [bOwned])) ∧
    ((∃ b ∈ [bOwned], idMatches 7 2 b = true) ∧
      (acknowledgeBreach [bOwned] 2 7 11).1 = AckResult.ok ∧
      (acknowledgeBreach [bOwned] 2 7 11).2 =
        [bOwned].map (fun b =>
          if idMatches 7 2 b then
            { b with userAcknowledged := true, acknowledgedAt := some 11 }
          else b)) :=
  ⟨⟨by decide, (acknowledgeBreach_spec [bOwned] 5 7 11).1 (by decide)⟩,
   ⟨by decide, (acknowledgeBreach_spec [bOwned] 2 7 11).2 (by decide)⟩⟩

/-- C10: whenever `breachSources` changed and the record is saved, the
whole `recommendedActions` list is rebuilt as a pure function of the new
sources with every `completed` flag `false`; in particular the merge of a
source with a fresh name into an existing record discards any completion
progress previously recorded by the complete-action operation. -/
theorem recommendedActions_reset_on_sources_change :
    (∀ b : Breach,
      (preSaveHook b true).recommendedActions =
        generateRecommendedActions (calculateRiskLevel b.breachSources) ∧
      ∀ a ∈ (preSaveHook b true).recommendedActions, a.completed = false) ∧
    (∀ (b : Breach) (src sev : String) (c now : Nat),
      b.breachSources.find? (fun s => s.name == src) = none →
      ∀ a ∈ (updateExisting b src sev c now).recommendedActions,
        a.completed = false) := by
  constructor
  · intro b
    exact ⟨rfl, generateRecommendedActions_completed _⟩
  · intro b src sev c now hf a ha
    simp only [updateExisting, hf] at ha
    exact generateRecommendedActions_completed _ a
      (by simpa [preSaveHook] using ha)

/-- A concrete record whose first recommended action was completed. -/
def bDone : Breach :=
  { id := 9, userId := 2, passwordHash := "H4",
    breachSources :=
      [{ name := "OtherCorpus", dateFound := 0, severity := "medium",
         description := "d", affectedAccounts := 3 }],
    isActive := true, firstDetected := 0, lastChecked := 0,
    timesFound := 1, notificationsSent := 0, userAcknowledged := false,
    acknowledgedAt := none, riskLevel := "medium",
    recommendedActions :=
      [{ action := "Change password immediately", priority := "high",
         completed := true }] }

/-- Witness for C10: merging a fresh source name into `bDone` resets the
previously completed action. -/
theorem recommendedActions_reset_witness :
    bDone.breachSources.find? (fun s => s.name == "HaveIBeenPwned") = none ∧
    ∀ a ∈ (updateExisting bDone "HaveIBeenPwned" "medium" 1500 9).recommendedActions,
      a.completed = false :=
  ⟨by decide,
   recommendedActions_reset_on_sources_change.2 bDone "HaveIBeenPwned"
     "medium" 1500 9 (by decide)⟩

end PBNS
